import Mathlib

/-!
Shallow embedding of `src/server.py` (localhost_mcp), an MCP server exposing
three tools: `fetch_url`, `fetch_localhost` and `check_ports`, all built on a
single helper `make_request`.

The external HTTP client (httpx) is modelled as an oracle
`client : HttpRequest → HttpResult`: the embedding builds the exact request
the source passes to `client.request(...)` and then renders whatever outcome
the oracle returns, exactly as the source's `try/except` chain does.

Strings are modelled with Lean `String`; Python string operations that work
on code points (`len`, slicing `[:n]`, `startswith`) are modelled on
`String.data` (the list of characters), which matches Python's code-point
semantics.  Response headers are modelled as the ordered key/value list the
adapter hands to the renderer, which the source iterates in order.
-/

/-- Configuration constant `DEFAULT_TIMEOUT = 30.0` (server.py line 18).
The float value is modelled as the rational 30. -/
def DEFAULT_TIMEOUT : ℚ := 30

/-- Configuration constant `MAX_CONTENT_LENGTH = 500_000` (server.py line 19). -/
def MAX_CONTENT_LENGTH : ℕ := 500000

/-- A successful HTTP response as the httpx adapter delivers it to the
renderer: status code, reason phrase, ordered header list (duplicates
allowed), raw body bytes (`response.content`) and decoded text
(`response.text`). -/
structure Response where
  status_code : ℕ
  reason_phrase : String
  headers : List (String × String)
  content : List ℕ
  text : String
deriving Repr, DecidableEq

/-- The request `make_request` hands to the external client: uppercased
method, url, headers (empty map when absent), optional body content, and the
timeout the `AsyncClient` is configured with. -/
structure HttpRequest where
  method : String
  url : String
  headers : List (String × String)
  content : Option String
  timeout : ℚ
deriving Repr, DecidableEq

/-- Outcome of one external HTTP call, one constructor per `except` arm of
`make_request`: success, `httpx.ConnectError` (carrying `str(e)`),
`httpx.TimeoutException`, `httpx.HTTPStatusError` (carrying
`e.response.status_code` and `e.response.reason_phrase`), and any other
exception (carrying `type(e).__name__` and `str(e)`). -/
inductive HttpResult where
  | ok (resp : Response)
  | connectError (err : String)
  | timeoutError
  | statusError (status_code : ℕ) (reason_phrase : String)
  | otherError (kind msg : String)
deriving Repr, DecidableEq

/-- Python truthiness of the `Optional[str]` body: `None` and `""` are
falsy, any non-empty string is truthy (server.py line 92, `if body and ...`). -/
def body_truthy : Option String → Bool
  | none => false
  | some s => !s.isEmpty

/-- Python `method.upper()`, modelled as the per-character uppercase map on
code points (identical to Python's behaviour on the ASCII method names the
source documents). -/
def py_upper (s : String) : String :=
  String.mk (s.data.map Char.toUpper)

/-- `method.upper() in ("POST", "PUT", "PATCH")` (server.py line 92). -/
def method_allows_body (method : String) : Bool :=
  ["POST", "PUT", "PATCH"].contains (py_upper method)

/-- The request-kwargs construction of server.py lines 91-96: headers default
to the empty map, `content` is set to the body only when the body is truthy
and the uppercased method is POST, PUT or PATCH, and the method sent on the
wire is `method.upper()`. -/
def build_request (url method : String) (headers : Option (List (String × String)))
    (body : Option String) (timeout : ℚ) : HttpRequest :=
  { method := py_upper method
    url := url
    headers := headers.getD []
    content := if body_truthy body && method_allows_body method then body else none
    timeout := timeout }

/-- Case-insensitive header lookup with default, modelling
`response.headers.get("content-type", "unknown")` (server.py line 100):
httpx header keys compare case-insensitively; the first matching header wins. -/
def headers_get (hs : List (String × String)) (key dflt : String) : String :=
  match hs.find? (fun kv => kv.1.toLower == key) with
  | some kv => kv.2
  | none => dflt

/-- Body preparation of server.py lines 103-105: take `response.text`; when
its (code point) length exceeds `MAX_CONTENT_LENGTH`, keep the first
`MAX_CONTENT_LENGTH` characters and append the truncation notice. -/
def truncate_body (text : String) : String :=
  if text.length > MAX_CONTENT_LENGTH then
    String.mk (text.data.take MAX_CONTENT_LENGTH) ++
      ("\n\n... [TRUNCATED - Response exceeded " ++ toString MAX_CONTENT_LENGTH ++ " bytes]")
  else text

/-- One `- key: value` line of the header listing (server.py line 117). -/
def header_line (kv : String × String) : String :=
  "- " ++ kv.1 ++ ": " ++ kv.2 ++ "\n"

/-- The success-path report of server.py lines 98-121: the fixed f-string
header block (source URL, status line, content type, raw byte length), then
the `result += ...` loop over the response headers, then the fenced body. -/
def success_report (url : String) (resp : Response) : String :=
  let content_type := headers_get resp.headers "content-type" "unknown"
  let content := truncate_body resp.text
  let result :=
    "## Response from " ++ url ++ "\n\n**Status:** " ++ toString resp.status_code ++ " " ++
      resp.reason_phrase ++ "\n**Content-Type:** " ++ content_type ++
      "\n**Content-Length:** " ++ toString resp.content.length ++ " bytes\n\n### Headers\n"
  let result := resp.headers.foldl (fun acc kv => acc ++ header_line kv) result
  result ++ ("\n### Body\n\n```\n" ++ content ++ "\n```")

/-- `make_request` (server.py lines 79-130): build the request, hand it to
the external client, and render the outcome — the success report for a
response, and one fixed error string per `except` arm.  Every outcome maps to
a returned string; nothing escapes. -/
def make_request (url : String) (method : String) (headers : Option (List (String × String)))
    (body : Option String) (timeout : ℚ) (client : HttpRequest → HttpResult) : String :=
  match client (build_request url method headers body timeout) with
  | .ok resp => success_report url resp
  | .connectError e =>
      "**Connection Error:** Could not connect to " ++ url ++
        "\n\nMake sure the server is running. Error: " ++ e
  | .timeoutError =>
      "**Timeout:** Request to " ++ url ++ " timed out after " ++ toString timeout ++ " seconds"
  | .statusError code reason =>
      "**HTTP Error:** " ++ toString code ++ " - " ++ reason
  | .otherError kind msg =>
      "**Error:** " ++ kind ++ ": " ++ msg

/-- Python `path.startswith("/")` on code points (server.py line 195). -/
def py_startswith (s pre : String) : Bool :=
  pre.data.isPrefixOf s.data

/-- Path normalization of server.py line 195:
`path if path.startswith("/") else f"/{path}"`. -/
def normalize_path (path : String) : String :=
  if py_startswith path "/" then path else "/" ++ path

/-- URL composition of server.py line 196: `f"http://localhost:{port}{path}"`
applied to the normalized path. -/
def localhost_url (port : ℕ) (path : String) : String :=
  "http://localhost:" ++ toString port ++ normalize_path path

/-- The `fetch_localhost` tool (server.py lines 179-203): normalize the path,
build the localhost URL, and delegate to `make_request` without passing a
timeout, so the `DEFAULT_TIMEOUT` default applies. -/
def fetch_localhost (port : ℕ) (path method : String)
    (headers : Option (List (String × String))) (body : Option String)
    (client : HttpRequest → HttpResult) : String :=
  make_request (localhost_url port path) method headers body DEFAULT_TIMEOUT client

/-- The `fetch_url` tool (server.py lines 143-166): a direct delegation to
`make_request` with the caller's timeout. -/
def fetch_url (url method : String) (headers : Option (List (String × String)))
    (body : Option String) (timeout : ℚ) (client : HttpRequest → HttpResult) : String :=
  make_request url method headers body timeout client

/-- Outcome of one port probe (`client.get(url)` inside `check_ports`), one
constructor per `except` arm of server.py lines 239-247. -/
inductive ProbeResult where
  | ok (status_code : ℕ)
  | connectError
  | timeoutError
  | otherError (kind : String)
deriving Repr, DecidableEq

/-- The per-port status label of server.py lines 239-247. -/
def port_status : ProbeResult → String
  | .ok code => "✅ **OPEN** - Status " ++ toString code
  | .connectError => "❌ Closed/Not responding"
  | .timeoutError => "⏳ Timeout (might be busy)"
  | .otherError kind => "⚠️ Error: " ++ kind

/-- The fixed port list of server.py line 233. -/
def common_ports : List ℕ := [3000, 3001, 4000, 5000, 5173, 5174, 8000, 8080, 8888]

/-- The `results` list built by `check_ports` (server.py lines 234-249): the
header string followed by one bullet per port, in list order.  The probe
oracle gives each port's outcome. -/
def check_ports_results (probe : ℕ → ProbeResult) : List String :=
  "## Local Port Scan Results\n" ::
    common_ports.map (fun port => "- **Port " ++ toString port ++ ":** " ++ port_status (probe port))

/-- Python `sep.join(parts)`. -/
def pyJoin (sep : String) : List String → String
  | [] => ""
  | [x] => x
  | x :: xs => x ++ sep ++ pyJoin sep xs

/-- Concatenation of a list of strings (used to state the header-listing
shape of the success report). -/
def pyConcat : List String → String
  | [] => ""
  | x :: xs => x ++ pyConcat xs

/-- The `check_ports` tool (server.py lines 216-251):
`"\n".join(results)`. -/
def check_ports (probe : ℕ → ProbeResult) : String :=
  pyJoin "\n" (check_ports_results probe)

/-! ### Concrete scenario inputs

Client and probe oracles and concrete responses used to evaluate the
theorems on explicit inputs. -/

/-- A client whose target always refuses the connection. -/
def clientRefused : HttpRequest → HttpResult := fun _ => .connectError "refused"

/-- A client whose request always times out. -/
def clientTimesOut : HttpRequest → HttpResult := fun _ => .timeoutError

/-- A concrete non-2xx response. -/
def resp404 : Response :=
  { status_code := 404
    reason_phrase := "Not Found"
    headers := [("content-type", "text/html"), ("x-a", "1"), ("x-a", "2")]
    content := [60, 104, 49, 62]
    text := "<h1>" }

/-- A client that always delivers `resp404`. -/
def clientOk404 : HttpRequest → HttpResult := fun _ => .ok resp404

/-- A decoded body of 500001 characters, one past the truncation ceiling. -/
def bigText : String := String.mk (List.replicate 500001 'a')

/-- A response whose decoded text exceeds `MAX_CONTENT_LENGTH` while its raw
byte content has a different (tiny) length. -/
def bigResp : Response :=
  { status_code := 200
    reason_phrase := "OK"
    headers := [("content-type", "text/plain")]
    content := [97, 97]
    text := bigText }

/-- A probe oracle under which every port refuses the connection. -/
def probeRefused : ℕ → ProbeResult := fun _ => .connectError

/-! ### Helper lemmas -/

lemma foldl_header_line (hs : List (String × String)) (init : String) :
    hs.foldl (fun acc kv => acc ++ header_line kv) init =
      init ++ pyConcat (hs.map header_line) := by
  induction hs generalizing init with
  | nil => simp [pyConcat]
  | cons kv t ih => simp [pyConcat, ih, String.append_assoc]

lemma success_report_eq (url : String) (resp : Response) :
    success_report url resp =
      "## Response from " ++ url ++ "\n\n**Status:** " ++ toString resp.status_code ++ " " ++
        resp.reason_phrase ++ "\n**Content-Type:** " ++
        headers_get resp.headers "content-type" "unknown" ++
        "\n**Content-Length:** " ++ toString resp.content.length ++ " bytes\n\n### Headers\n" ++
        pyConcat (resp.headers.map header_line) ++
        "\n### Body\n\n```\n" ++ truncate_body resp.text ++ "\n```" := by
  simp only [success_report]
  rw [foldl_header_line]
  simp [String.append_assoc]

/-! ### Claim theorems -/

/-- C3: for every method string `m` and every non-empty body `b`, the
outgoing request payload includes `b` if and only if `upper(m)` is one of
POST, PUT, PATCH; in particular a body supplied with GET is silently dropped
and no error is raised. -/
theorem body_included_iff_method_post_put_patch
    (url : String) (headers : Option (List (String × String))) (timeout : ℚ)
    (method b : String) (hb : b ≠ "") :
    ((build_request url method headers (some b) timeout).content = some b ↔
      py_upper method ∈ (["POST", "PUT", "PATCH"] : List String)) ∧
    (build_request url "GET" headers (some b) timeout).content = none := by
  have hbe : b.isEmpty = false := by
    cases h : b.isEmpty
    · rfl
    · exact absurd ((String.isEmpty_iff b).mp h) hb
  constructor
  · by_cases hm : py_upper method ∈ (["POST", "PUT", "PATCH"] : List String)
    · have hc : ["POST", "PUT", "PATCH"].contains (py_upper method) = true := by
        simpa using hm
      simp [build_request, body_truthy, method_allows_body, hbe, hc, hm]
    · have hc : ["POST", "PUT", "PATCH"].contains (py_upper method) = false := by
        simpa using hm
      simp [build_request, body_truthy, method_allows_body, hbe, hc, hm]
  · have hg : method_allows_body "GET" = false := by decide
    simp [build_request, hg]

/-- Evaluation of `body_included_iff_method_post_put_patch` at the concrete
method "post" and body "x". -/
theorem body_included_iff_method_post_put_patch_witness :
    ((build_request "http://localhost:3000/" "post" none (some "x") 30).content = some "x" ↔
      py_upper "post" ∈ (["POST", "PUT", "PATCH"] : List String)) ∧
    (build_request "http://localhost:3000/" "GET" none (some "x") 30).content = none :=
  body_included_iff_method_post_put_patch "http://localhost:3000/" none 30 "post" "x"
    (by decide)

/-- C10: an empty-string body is never attached to the outgoing request, even
for POST/PUT/PATCH: the truthiness test treats it exactly like an absent
body, so the built request — and hence the whole call — coincides with the
no-body one. -/
theorem empty_body_treated_as_absent
    (url method : String) (headers : Option (List (String × String))) (timeout : ℚ)
    (client : HttpRequest → HttpResult) :
    build_request url method headers (some "") timeout =
      build_request url method headers none timeout ∧
    (build_request url "POST" headers (some "") timeout).content = none ∧
    make_request url method headers (some "") timeout client =
      make_request url method headers none timeout client := by
  exact ⟨rfl, rfl, rfl⟩

/-- C9: every `fetch_localhost` call delegates to `make_request` with the
fixed default timeout of 30 seconds; the built request's timeout field is 30. -/
theorem fetch_localhost_uses_default_timeout
    (port : ℕ) (path method : String) (headers : Option (List (String × String)))
    (body : Option String) (client : HttpRequest → HttpResult) :
    fetch_localhost port path method headers body client =
      make_request (localhost_url port path) method headers body 30 client ∧
    DEFAULT_TIMEOUT = 30 ∧
    (build_request (localhost_url port path) method headers body DEFAULT_TIMEOUT).timeout = 30 :=
  ⟨rfl, rfl, rfl⟩

/-- C6: `fetch_localhost` targets `http://localhost:<port><normalized path>`
where normalization prepends "/" exactly when the path does not already start
with "/"; normalization is idempotent, and port 3000 with path "api/users"
targets `http://localhost:3000/api/users`. -/
theorem fetch_localhost_path_normalization
    (port : ℕ) (path method : String) (headers : Option (List (String × String)))
    (body : Option String) (client : HttpRequest → HttpResult) :
    fetch_localhost port path method headers body client =
      make_request ("http://localhost:" ++ toString port ++ normalize_path path)
        method headers body DEFAULT_TIMEOUT client ∧
    (py_startswith path "/" = true → normalize_path path = path) ∧
    normalize_path (normalize_path path) = normalize_path path ∧
    localhost_url 3000 "api/users" = "http://localhost:3000/api/users" := by
  refine ⟨rfl, ?_, ?_, ?_⟩
  · intro h
    simp [normalize_path, h]
  · by_cases h : py_startswith path "/"
    · simp [normalize_path, h]
    · have h2 : py_startswith ("/" ++ path) "/" = true := by
        rw [py_startswith, String.data_append, List.isPrefixOf_iff_prefix]
        exact List.prefix_append _ _
      simp [normalize_path, h, h2]
  · decide

/-- Evaluation of `fetch_localhost_path_normalization` at port 3000 and the
concrete paths "api/users" and "/api/users". -/
theorem fetch_localhost_path_normalization_witness :
    fetch_localhost 3000 "api/users" "GET" none none clientRefused =
      make_request ("http://localhost:" ++ toString 3000 ++ normalize_path "api/users")
        "GET" none none DEFAULT_TIMEOUT clientRefused ∧
    normalize_path "/api/users" = "/api/users" :=
  ⟨(fetch_localhost_path_normalization 3000 "api/users" "GET" none none clientRefused).1,
    (fetch_localhost_path_normalization 3000 "/api/users" "GET" none none clientRefused).2.1
      (by decide)⟩

/-- C1: `make_request` always returns a non-empty string, whatever the
client outcome: connection errors, timeouts, HTTP status errors and any
other exception are each converted to their fixed descriptive text message
and nothing propagates past the tool boundary. -/
theorem make_request_always_returns_text
    (url method : String) (headers : Option (List (String × String)))
    (body : Option String) (timeout : ℚ) (client : HttpRequest → HttpResult) :
    0 < (make_request url method headers body timeout client).length ∧
    (∀ e, client (build_request url method headers body timeout) = .connectError e →
      make_request url method headers body timeout client =
        "**Connection Error:** Could not connect to " ++ url ++
          "\n\nMake sure the server is running. Error: " ++ e) ∧
    (client (build_request url method headers body timeout) = .timeoutError →
      make_request url method headers body timeout client =
        "**Timeout:** Request to " ++ url ++ " timed out after " ++ toString timeout ++
          " seconds") ∧
    (∀ code reason,
      client (build_request url method headers body timeout) = .statusError code reason →
      make_request url method headers body timeout client =
        "**HTTP Error:** " ++ toString code ++ " - " ++ reason) ∧
    (∀ kind msg, client (build_request url method headers body timeout) = .otherError kind msg →
      make_request url method headers body timeout client =
        "**Error:** " ++ kind ++ ": " ++ msg) := by
  refine ⟨?_, ?_, ?_, ?_, ?_⟩
  · cases hc : client (build_request url method headers body timeout) with
    | ok resp =>
        have h1 : 0 < ("\n```" : String).length := by decide
        simp only [make_request, hc]
        rw [success_report_eq]
        simp only [String.length_append]
        omega
    | connectError e =>
        have h1 : 0 < ("**Connection Error:** Could not connect to " : String).length := by
          decide
        simp only [make_request, hc]
        simp only [String.length_append]
        omega
    | timeoutError =>
        have h1 : 0 < ("**Timeout:** Request to " : String).length := by decide
        simp only [make_request, hc]
        simp only [String.length_append]
        omega
    | statusError code reason =>
        have h1 : 0 < ("**HTTP Error:** " : String).length := by decide
        simp only [make_request, hc]
        simp only [String.length_append]
        omega
    | otherError kind msg =>
        have h1 : 0 < ("**Error:** " : String).length := by decide
        simp only [make_request, hc]
        simp only [String.length_append]
        omega
  · intro e h
    simp [make_request, h]
  · intro h
    simp [make_request, h]
  · intro code reason h
    simp [make_request, h]
  · intro kind msg h
    simp [make_request, h]

/-- Evaluation of `make_request_always_returns_text` on a client that times
out. -/
theorem make_request_always_returns_text_witness :
    0 < (make_request "http://localhost:3000/" "GET" none none 30 clientTimesOut).length ∧
    make_request "http://localhost:3000/" "GET" none none 30 clientTimesOut =
      "**Timeout:** Request to " ++ "http://localhost:3000/" ++ " timed out after " ++
        toString (30 : ℚ) ++ " seconds" := by
  have h := make_request_always_returns_text "http://localhost:3000/" "GET" none none 30
    clientTimesOut
  exact ⟨h.1, h.2.2.1 rfl⟩

/-- C7: the success report lists one `- key: value` line per response header
(duplicates preserved, in response order, via the map over the header list)
and its sections appear in the fixed order: source-URL header line, status
line, content type, content length, header list, fenced body. -/
theorem success_report_fixed_sections (url : String) (resp : Response) :
    success_report url resp =
      "## Response from " ++ url ++ "\n\n**Status:** " ++ toString resp.status_code ++ " " ++
        resp.reason_phrase ++ "\n**Content-Type:** " ++
        headers_get resp.headers "content-type" "unknown" ++
        "\n**Content-Length:** " ++ toString resp.content.length ++ " bytes\n\n### Headers\n" ++
        pyConcat (resp.headers.map header_line) ++
        "\n### Body\n\n```\n" ++ truncate_body resp.text ++ "\n```" ∧
    (resp.headers.map header_line).length = resp.headers.length :=
  ⟨success_report_eq url resp, List.length_map _ _⟩

/-- C4: for any combination of per-port probe outcomes, the `check_ports`
report is the fixed header followed by exactly one bullet per port, in
exactly the order [3000, 3001, 4000, 5000, 5173, 5174, 8000, 8080, 8888]. -/
theorem check_ports_fixed_order (probe : ℕ → ProbeResult) :
    check_ports probe =
      "## Local Port Scan Results\n\n" ++
        pyJoin "\n"
          (([3000, 3001, 4000, 5000, 5173, 5174, 8000, 8080, 8888] : List ℕ).map
            (fun port => "- **Port " ++ toString port ++ ":** " ++ port_status (probe port))) ∧
    check_ports_results probe =
      "## Local Port Scan Results\n" ::
        ([3000, 3001, 4000, 5000, 5173, 5174, 8000, 8080, 8888] : List ℕ).map
          (fun port => "- **Port " ++ toString port ++ ":** " ++ port_status (probe port)) := by
  constructor
  · have hlit : ("## Local Port Scan Results\n\n" : String) =
        "## Local Port Scan Results\n" ++ "\n" := by decide
    rw [hlit]
    simp [check_ports, check_ports_results, common_ports, pyJoin, String.append_assoc]
  · rfl

/-- C5: each probed port's outcome is labelled as the source maps it: any
successful response is OPEN with its status code, a connection failure is
CLOSED, a timeout is TIMEOUT (might be busy), and any other error is ERROR
with the error-kind name; the port's bullet line is in the report's list. -/
theorem check_ports_outcome_labels (probe : ℕ → ProbeResult) (port : ℕ)
    (hp : port ∈ common_ports) :
    ("- **Port " ++ toString port ++ ":** " ++ port_status (probe port)) ∈
      check_ports_results probe ∧
    (∀ code, probe port = .ok code →
      port_status (probe port) = "✅ **OPEN** - Status " ++ toString code) ∧
    (probe port = .connectError → port_status (probe port) = "❌ Closed/Not responding") ∧
    (probe port = .timeoutError → port_status (probe port) = "⏳ Timeout (might be busy)") ∧
    (∀ kind, probe port = .otherError kind →
      port_status (probe port) = "⚠️ Error: " ++ kind) := by
  refine ⟨?_, ?_, ?_, ?_, ?_⟩
  · exact List.mem_cons_of_mem _ (List.mem_map_of_mem _ hp)
  · intro code h
    rw [h]
    rfl
  · intro h
    rw [h]
    rfl
  · intro h
    rw [h]
    rfl
  · intro kind h
    rw [h]
    rfl

/-- Evaluation of `check_ports_outcome_labels` at port 3000 under the
all-refused probe oracle. -/
theorem check_ports_outcome_labels_witness :
    ("- **Port " ++ toString 3000 ++ ":** " ++ port_status (probeRefused 3000)) ∈
      check_ports_results probeRefused ∧
    port_status (probeRefused 3000) = "❌ Closed/Not responding" := by
  have h := check_ports_outcome_labels probeRefused 3000 (by decide)
  exact ⟨h.1, h.2.2.1 rfl⟩

/-- C2: when the decoded text exceeds 500000 characters, the rendered body is
exactly the first 500000 characters followed by the truncation notice naming
the 500000 limit, while the Content-Length line still reports the raw byte
length of `response.content`, not the truncated text length. -/
theorem truncated_body_keeps_raw_content_length (url : String) (resp : Response)
    (h : resp.text.length > 500000) :
    truncate_body resp.text =
      String.mk (resp.text.data.take 500000) ++
        "\n\n... [TRUNCATED - Response exceeded 500000 bytes]" ∧
    (String.mk (resp.text.data.take 500000)).length = 500000 ∧
    (truncate_body resp.text).length =
      500000 + ("\n\n... [TRUNCATED - Response exceeded 500000 bytes]" : String).length ∧
    success_report url resp =
      ("## Response from " ++ url ++ "\n\n**Status:** " ++ toString resp.status_code ++ " " ++
        resp.reason_phrase ++ "\n**Content-Type:** " ++
        headers_get resp.headers "content-type" "unknown" ++ "\n") ++
      ("**Content-Length:** " ++ toString resp.content.length ++ " bytes") ++
      ("\n\n### Headers\n" ++ pyConcat (resp.headers.map header_line) ++
        "\n### Body\n\n```\n" ++
        (String.mk (resp.text.data.take 500000) ++
          "\n\n... [TRUNCATED - Response exceeded 500000 bytes]") ++ "\n```") := by
  have hnot : ("\n\n... [TRUNCATED - Response exceeded " ++ toString MAX_CONTENT_LENGTH ++
      " bytes]" : String) = "\n\n... [TRUNCATED - Response exceeded 500000 bytes]" := by
    decide
  have h1 : truncate_body resp.text =
      String.mk (resp.text.data.take 500000) ++
        "\n\n... [TRUNCATED - Response exceeded 500000 bytes]" := by
    have hmax : resp.text.length > MAX_CONTENT_LENGTH := h
    unfold truncate_body
    rw [if_pos hmax, hnot]
    rfl
  have h2 : (String.mk (resp.text.data.take 500000)).length = 500000 := by
    have he : (String.mk (resp.text.data.take 500000)).length =
        (resp.text.data.take 500000).length := rfl
    have hl : resp.text.length = resp.text.data.length := rfl
    rw [he, List.length_take]
    omega
  refine ⟨h1, h2, ?_, ?_⟩
  · rw [h1, String.length_append, h2]
  · have s1 : ("\n**Content-Length:** " : String) = "\n" ++ "**Content-Length:** " := by
      decide
    have s2 : (" bytes\n\n### Headers\n" : String) = " bytes" ++ "\n\n### Headers\n" := by
      decide
    rw [success_report_eq, h1, s1, s2]
    simp only [String.append_assoc]

/-- Evaluation of `truncated_body_keeps_raw_content_length` on a response
whose decoded text has 500001 characters. -/
theorem truncated_body_keeps_raw_content_length_witness :
    truncate_body bigResp.text =
      String.mk (bigResp.text.data.take 500000) ++
        "\n\n... [TRUNCATED - Response exceeded 500000 bytes]" ∧
    (String.mk (bigResp.text.data.take 500000)).length = 500000 := by
  have hlen : bigResp.text.length > 500000 := by
    have he : bigResp.text.length = (List.replicate 500001 'a').length := rfl
    rw [he, List.length_replicate]
    omega
  have h := truncated_body_keeps_raw_content_length "http://localhost:3000/" bigResp hlen
  exact ⟨h.1, h.2.1⟩

/-- C8: under the source's client configuration, which never raises HTTP
status errors, every response — whatever its status code — is rendered with
the success-format report, and the HTTPStatusError handling branch is
unreachable: the result always comes from one of the other four branches. -/
theorem http_status_error_branch_unreachable
    (url method : String) (headers : Option (List (String × String)))
    (body : Option String) (timeout : ℚ) (client : HttpRequest → HttpResult)
    (hns : ∀ code reason,
      client (build_request url method headers body timeout) ≠ .statusError code reason) :
    (∀ resp, client (build_request url method headers body timeout) = .ok resp →
      make_request url method headers body timeout client = success_report url resp) ∧
    ((∃ resp, client (build_request url method headers body timeout) = .ok resp ∧
        make_request url method headers body timeout client = success_report url resp) ∨
      (∃ e, make_request url method headers body timeout client =
        "**Connection Error:** Could not connect to " ++ url ++
          "\n\nMake sure the server is running. Error: " ++ e) ∨
      make_request url method headers body timeout client =
        "**Timeout:** Request to " ++ url ++ " timed out after " ++ toString timeout ++
          " seconds" ∨
      (∃ kind msg, make_request url method headers body timeout client =
        "**Error:** " ++ kind ++ ": " ++ msg)) := by
  constructor
  · intro resp h
    simp [make_request, h]
  · cases hc : client (build_request url method headers body timeout) with
    | ok resp => exact Or.inl ⟨resp, rfl, by simp [make_request, hc]⟩
    | connectError e => exact Or.inr (Or.inl ⟨e, by simp [make_request, hc]⟩)
    | timeoutError => exact Or.inr (Or.inr (Or.inl (by simp [make_request, hc])))
    | statusError code reason => exact absurd hc (hns code reason)
    | otherError kind msg =>
        exact Or.inr (Or.inr (Or.inr ⟨kind, msg, by simp [make_request, hc]⟩))

/-- Evaluation of `http_status_error_branch_unreachable` on a client that
always answers with the concrete 404 response: the non-2xx response is
rendered with the success format. -/
theorem http_status_error_branch_unreachable_witness :
    make_request "http://localhost:3000/" "GET" none none 30 clientOk404 =
      success_report "http://localhost:3000/" resp404 := by
  have h := http_status_error_branch_unreachable "http://localhost:3000/" "GET" none none 30
    clientOk404 (fun code reason hcontra => HttpResult.noConfusion hcontra)
  exact h.1 resp404 rfl
